import Mathlib

/-!
Verification of the client-side resilience layer of the car-auction-analyzer
repository: the service-worker cache strategy router and durable upload queue
(docs/sw.js) and the axios-based authenticated request pipeline
(mobile/CarAuctionAnalyzer/src/config/api.ts), shallowly embedded in Lean 4.
-/

/-- An HTTP response as seen by the service worker: we keep the status code and
an opaque body identifier. -/
structure Response where
  status : Nat
  body : String
deriving DecidableEq, Repr

/-- The truthiness of `response.ok` in the Fetch API: status in 200..299. -/
def Response.okFlag (r : Response) : Bool :=
  decide (200 ≤ r.status) && decide (r.status < 300)

/-- One cache namespace: an association list from request key (URL) to the
stored response, mirroring the Cache API where `put` overwrites the entry for
the same request. -/
def Cache : Type := List (String × Response)

instance : DecidableEq Cache := by
  unfold Cache
  infer_instance

/-- `cache.match(request)` within one namespace. -/
def cacheMatch (c : Cache) (k : String) : Option Response :=
  (c.find? (fun e => e.1 = k)).map (fun e => e.2)

/-- `cache.put(request, response)` within one namespace: overwrites any entry
stored under the same key. -/
def cachePut (c : Cache) (k : String) (r : Response) : Cache :=
  (k, r) :: c.filter (fun e => ¬ e.1 = k)

/-- The four versioned cache namespaces declared at the top of sw.js
(STATIC_CACHE, DYNAMIC_CACHE, IMAGE_CACHE, API_CACHE). -/
structure Caches where
  staticCache : Cache
  dynamicCache : Cache
  imageCache : Cache
  apiCache : Cache
deriving DecidableEq

/-- The global `caches.match(request)`: searches every namespace, in the order
the namespaces are declared in sw.js. -/
def cachesMatch (c : Caches) (k : String) : Option Response :=
  (cacheMatch c.staticCache k).orElse (fun _ =>
    (cacheMatch c.dynamicCache k).orElse (fun _ =>
      (cacheMatch c.imageCache k).orElse (fun _ =>
        cacheMatch c.apiCache k)))

def emptyCaches : Caches := ⟨[], [], [], []⟩

instance exceptDecEq {ε α : Type} [DecidableEq ε] [DecidableEq α] :
    DecidableEq (Except ε α) := fun x y =>
  match x, y with
  | Except.ok a, Except.ok b =>
    if h : a = b then isTrue (by simp [h]) else isFalse (by simp [h])
  | Except.ok _, Except.error _ => isFalse (by simp)
  | Except.error _, Except.ok _ => isFalse (by simp)
  | Except.error a, Except.error b =>
    if h : a = b then isTrue (by simp [h]) else isFalse (by simp [h])

/-- A network outcome for one `fetch(request)`: either a resolved response or
a rejection (network error). -/
def NetResult : Type := Except Unit Response

instance : DecidableEq NetResult := by
  unfold NetResult
  infer_instance

/-- What one pass through a fetch-event strategy yields: the value the
surrounding promise resolves with (`Except.error` models a rejected promise
propagating to respondWith, `Except.ok none` a promise resolved with
undefined), the cache state afterwards, and whether `fetch` was called. -/
structure FetchOutcome where
  result : Except Unit (Option Response)
  cache : Caches
  fetched : Bool
deriving DecidableEq

/-- Substring test used to embed `url.includes(...)`. -/
def containsSub (s sub : String) : Bool :=
  decide (sub.data <:+: s.data)

/-- STATIC_ASSETS from sw.js lines 18-33. -/
def STATIC_ASSETS : List String :=
  ["/", "/index.html", "/manifest.json",
   "/icons/icon-72x72.png", "/icons/icon-96x96.png", "/icons/icon-128x128.png",
   "/icons/icon-144x144.png", "/icons/icon-152x152.png", "/icons/icon-192x192.png",
   "/icons/icon-384x384.png", "/icons/icon-512x512.png",
   "/icons/apple-icon-152.png", "/icons/apple-icon-167.png", "/icons/apple-icon-180.png"]

/-- A request as seen by the fetch handler: method, full URL, its pathname,
whether `request.destination` is image, and whether its origin equals the
service-worker origin. -/
structure SwRequest where
  method : String
  url : String
  pathname : String
  destinationImage : Bool
  sameOrigin : Bool
deriving DecidableEq

/-- isImageRequest from sw.js lines 83-86: destination image, or the URL ends
in an image extension (the regex is case-insensitive and anchored at the end). -/
def isImageRequest (r : SwRequest) : Bool :=
  r.destinationImage ||
    ([".jpg", ".jpeg", ".png", ".gif", ".svg", ".webp"].any
      (fun ext => r.url.toLower.endsWith ext))

/-- isApiRequest from sw.js lines 89-93. -/
def isApiRequest (r : SwRequest) : Bool :=
  containsSub r.url "/api/" || containsSub r.url "/analyze" || containsSub r.url "/vehicle"

/-- Strategy 1, sw.js lines 108-125: cache-first for static assets. On a hit
no fetch happens; on a miss the network result is returned, and stored in the
static namespace only when its status is 200. A rejected fetch on a miss is
not caught and propagates. -/
def strategyCacheFirst (c : Caches) (net : NetResult) (k : String) : FetchOutcome :=
  match cachesMatch c k with
  | some r => ⟨Except.ok (some r), c, false⟩
  | none =>
    match net with
    | Except.ok nr =>
      if nr.status = 200 then
        ⟨Except.ok (some nr), { c with staticCache := cachePut c.staticCache k nr }, true⟩
      else
        ⟨Except.ok (some nr), c, true⟩
    | Except.error e => ⟨Except.error e, c, true⟩

/-- Strategy 2, sw.js lines 128-145: cache-first with background refresh for
images. The fetch is issued unconditionally; a 200 result is stored in the
image namespace; fetch errors are caught and turn into undefined. -/
def strategyImage (c : Caches) (net : NetResult) (k : String) : FetchOutcome :=
  let c2 := match net with
    | Except.ok nr =>
      if nr.status = 200 then { c with imageCache := cachePut c.imageCache k nr } else c
    | Except.error _ => c
  match cachesMatch c k with
  | some r => ⟨Except.ok (some r), c2, true⟩
  | none =>
    match net with
    | Except.ok nr => ⟨Except.ok (some nr), c2, true⟩
    | Except.error _ => ⟨Except.ok none, c2, true⟩

/-- Strategy 3, sw.js lines 149-161: network-first with cache fallback for API
requests. A resolved response is returned, and stored in the API namespace
only when its status is 200. A rejected fetch is caught and replaced by
`caches.match(request)`, whose result (possibly undefined) is returned; the
original error is not rethrown. -/
def strategyNetworkFirst (c : Caches) (net : NetResult) (k : String) : FetchOutcome :=
  match net with
  | Except.ok nr =>
    if nr.status = 200 then
      ⟨Except.ok (some nr), { c with apiCache := cachePut c.apiCache k nr }, true⟩
    else
      ⟨Except.ok (some nr), c, true⟩
  | Except.error _ => ⟨Except.ok (cachesMatch c k), c, true⟩

/-- Strategy 4, sw.js lines 165-181: stale-while-revalidate. The fetch is
issued unconditionally; a 200 result is stored in the dynamic namespace; the
caller receives the cached entry when one exists, otherwise the network
result (undefined when the fetch rejected, since the error is caught). -/
def strategyStaleWhileRevalidate (c : Caches) (net : NetResult) (k : String) : FetchOutcome :=
  let c2 := match net with
    | Except.ok nr =>
      if nr.status = 200 then { c with dynamicCache := cachePut c.dynamicCache k nr } else c
    | Except.error _ => c
  match cachesMatch c k with
  | some r => ⟨Except.ok (some r), c2, true⟩
  | none =>
    match net with
    | Except.ok nr => ⟨Except.ok (some nr), c2, true⟩
    | Except.error _ => ⟨Except.ok none, c2, true⟩

/-- The fetch event listener, sw.js lines 96-185. Returns none when the
handler returns without calling respondWith (non-GET or cross-origin
requests), in which case no strategy runs and no cache is touched. -/
def handleFetch (st : Caches) (r : SwRequest) (net : NetResult) : Option FetchOutcome :=
  if ¬ (r.method = "GET") ∨ ¬ r.sameOrigin then
    none
  else if STATIC_ASSETS.contains r.pathname || r.pathname.startsWith "/icons/" then
    some (strategyCacheFirst st net r.url)
  else if isImageRequest r then
    some (strategyImage st net r.url)
  else if isApiRequest r then
    some (strategyNetworkFirst st net r.url)
  else
    some (strategyStaleWhileRevalidate st net r.url)

/-!
Durable upload queue: the background-sync handler of sw.js (lines 188-227).
The handler reads all rows of the pending-uploads store, maps each row to a
POST of its payload, and awaits them together with Promise.all; a row is
deleted exactly when its own response satisfies response.ok.
-/

/-- One row of the pending-uploads store. The spec data model gives each
submission an attempts counter; the handler never touches it, so we carry it
to observe that. -/
structure PendingUpload where
  id : Nat
  attempts : Nat
deriving DecidableEq, Repr

/-- Whether one delivery attempt counts as a confirmed success: the fetch
resolved and `response.ok` held (sw.js line 211). -/
def deliverySucceeded : NetResult → Bool
  | Except.ok r => r.okFlag
  | Except.error _ => false

/-- The sync-photos handler, sw.js lines 191-225: every pending upload is
mapped to its own delivery attempt (all fetches are initiated, independent of
the outcomes of the others), and a row is deleted from the store exactly when
its own attempt succeeded. Returns the store afterwards and the ids for which
a delivery attempt was initiated, in store order. -/
def syncPhotos (store : List PendingUpload) (deliver : Nat → NetResult) :
    List PendingUpload × List Nat :=
  (store.filter (fun u => ¬ deliverySucceeded (deliver u.id) = true),
   store.map (fun u => u.id))

/-!
Authenticated request pipeline: the axios response interceptor of api.ts
(lines 150-232) together with clearAuthData (lines 236-242).
-/

/-- The three AsyncStorage slots of TOKEN_STORAGE (api.ts lines 89-93). -/
structure Storage where
  accessToken : Option String
  refreshToken : Option String
  userData : Option String
deriving DecidableEq, Repr

/-- clearAuthData, api.ts lines 236-242: removes all three slots. -/
def clearAuthData (_s : Storage) : Storage :=
  ⟨none, none, none⟩

/-- A request config as the interceptor sees it: an identifier and its
`_retry` flag. -/
structure ApiRequest where
  id : Nat
  retry : Bool
deriving DecidableEq, Repr

/-- The shared state of the ApiClient instance: the isRefreshing flag, the
refreshSubscribers list (api.ts lines 114-115), the persistent storage, and a
count of refresh POSTs issued so far (api.ts lines 181-184). -/
structure ApiState where
  isRefreshing : Bool
  refreshSubscribers : List ApiRequest
  storage : Storage
  refreshCalls : Nat
deriving DecidableEq, Repr

/-- What one invocation of the response-error interceptor does with the
request whose response failed. -/
inductive ErrOutcome where
  /-- Registered a subscriber and left the returned promise pending
  (api.ts lines 157-167). -/
  | suspended
  /-- Won the refresh race: `_retry` was set on the request, isRefreshing was
  set, and the refresh POST was issued; the marked request is carried so the
  later resolution can retry it (api.ts lines 169-184). -/
  | startedRefresh (initiator : ApiRequest)
  /-- Threw the Authentication required error (api.ts lines 178, 209). -/
  | authRequired
  /-- Threw the network error (api.ts lines 214-216). -/
  | networkError
  /-- Threw the standardized ApiError with this status (api.ts lines 219-230). -/
  | apiError (status : Nat)
deriving DecidableEq, Repr

/-- The response-error interceptor, api.ts lines 152-231. `status?` is
`error.response?.status` (none when there was no response). -/
def onError (st : ApiState) (r : ApiRequest) (status? : Option Nat) :
    ApiState × ErrOutcome :=
  if status? = some 401 ∧ r.retry = false then
    if st.isRefreshing then
      ({ st with refreshSubscribers := st.refreshSubscribers ++ [r] },
       ErrOutcome.suspended)
    else
      match st.storage.refreshToken with
      | none =>
        -- lines 175-179 throw inside the try block; the catch (lines
        -- 204-210) then resets the flag, empties the subscriber list and
        -- clears storage before rethrowing.
        ({ st with isRefreshing := false, refreshSubscribers := [],
                   storage := clearAuthData st.storage },
         ErrOutcome.authRequired)
      | some _ =>
        ({ st with isRefreshing := true, refreshCalls := st.refreshCalls + 1 },
         ErrOutcome.startedRefresh { r with retry := true })
  else
    match status? with
    | none => (st, ErrOutcome.networkError)
    | some s => (st, ErrOutcome.apiError s)

/-- Resolution of a successful refresh POST, api.ts lines 186-203: the new
token pair is persisted, every subscriber callback is invoked with the new
access token (each resumes its original request with that token), the list is
emptied, the flag dropped, and the initiating request retried with the same
token. Returns the state, the resumed waiters paired with the token their
retry uses, and the retried initiator. -/
def resolveRefreshSuccess (st : ApiState) (initiator : ApiRequest)
    (access refresh : String) :
    ApiState × List (ApiRequest × String) × (ApiRequest × String) :=
  ({ st with
      storage := { st.storage with accessToken := some access,
                                   refreshToken := some refresh },
      refreshSubscribers := [], isRefreshing := false },
   st.refreshSubscribers.map (fun w => (w, access)),
   (initiator, access))

/-- Resolution of a failed refresh POST, api.ts lines 204-210: the subscriber
list is assigned [] without any callback being invoked, the flag is dropped,
storage is cleared, and Authentication required is thrown to the initiator.
The middle component is the list of waiters that are actually resumed: it is
empty, whatever was registered. -/
def resolveRefreshFailure (st : ApiState) :
    ApiState × List (ApiRequest × String) × ErrOutcome :=
  ({ st with refreshSubscribers := [], isRefreshing := false,
             storage := clearAuthData st.storage },
   [],
   ErrOutcome.authRequired)

/-- Several requests hitting the response-error interceptor with 401, one
after the other on the single JS thread. -/
def handle401s (st : ApiState) (rs : List ApiRequest) :
    ApiState × List ErrOutcome :=
  match rs with
  | [] => (st, [])
  | r :: rest =>
    let p := onError st r (some 401)
    let q := handle401s p.1 rest
    (q.1, p.2 :: q.2)

/-! Theorems. -/

lemma cacheMatch_cachePut (c : Cache) (k : String) (r : Response) :
    cacheMatch (cachePut c k r) k = some r := by
  simp [cacheMatch, cachePut]

/-- Claim C9: a request whose method is not GET is not handled at all — no
strategy runs, no cache namespace is read or written, and the request falls
through to the network untouched. -/
theorem C9_non_get_bypass (st : Caches) (r : SwRequest) (net : NetResult)
    (h : ¬ r.method = "GET") :
    handleFetch st r net = none := by
  simp [handleFetch, h]

theorem C9_non_get_bypass_witness :
    handleFetch emptyCaches ⟨"POST", "/api/analyze", "/api/analyze", false, true⟩
      (Except.ok ⟨200, "b"⟩) = none :=
  C9_non_get_bypass emptyCaches ⟨"POST", "/api/analyze", "/api/analyze", false, true⟩
    (Except.ok ⟨200, "b"⟩) (by decide)

/-- Claim C7: under cache-first, a cache hit is returned with no fetch and no
cache change; and after a miss whose network response has status 200 is
stored, every repeated request for the same key is served from cache with no
further fetch. -/
theorem C7_cache_first_no_refetch :
    (∀ (c : Caches) (k : String) (net : NetResult) (r : Response),
        cachesMatch c k = some r →
        strategyCacheFirst c net k = ⟨Except.ok (some r), c, false⟩) ∧
    (∀ (c : Caches) (k : String) (r : Response),
        cachesMatch c k = none → r.status = 200 →
        (strategyCacheFirst c (Except.ok r) k).fetched = true ∧
        ∀ net2, strategyCacheFirst (strategyCacheFirst c (Except.ok r) k).cache net2 k
          = ⟨Except.ok (some r), (strategyCacheFirst c (Except.ok r) k).cache, false⟩) := by
  have hhit : ∀ (c : Caches) (k : String) (net : NetResult) (r : Response),
      cachesMatch c k = some r →
      strategyCacheFirst c net k = ⟨Except.ok (some r), c, false⟩ := by
    intro c k net r h
    simp [strategyCacheFirst, h]
  refine ⟨hhit, ?_⟩
  intro c k r hmiss h200
  refine ⟨by simp [strategyCacheFirst, hmiss, h200], ?_⟩
  intro net2
  have hc : (strategyCacheFirst c (Except.ok r) k).cache
      = { c with staticCache := cachePut c.staticCache k r } := by
    simp [strategyCacheFirst, hmiss, h200]
  have hm : cachesMatch (strategyCacheFirst c (Except.ok r) k).cache k = some r := by
    rw [hc]
    simp [cachesMatch, cacheMatch_cachePut]
  exact hhit _ k net2 r hm

theorem C7_cache_first_no_refetch_witness :
    strategyCacheFirst
        (strategyCacheFirst emptyCaches (Except.ok ⟨200, "b"⟩) "/index.html").cache
        (Except.error ()) "/index.html"
      = ⟨Except.ok (some ⟨200, "b"⟩),
         (strategyCacheFirst emptyCaches (Except.ok ⟨200, "b"⟩) "/index.html").cache,
         false⟩ :=
  (C7_cache_first_no_refetch.2 emptyCaches "/index.html" ⟨200, "b"⟩ (by decide) rfl).2
    (Except.error ())

/-- Claim C6: under stale-while-revalidate, when a cache entry exists the
caller receives exactly that entry whatever the network does, the fetch is
issued unconditionally, and a status-200 network result overwrites the entry
used for the key (stated for keys not shadowed by the static namespace, where
strategy-4 entries live). -/
theorem C6_stale_while_revalidate (c : Caches) (k : String) (net : NetResult)
    (r : Response) (h : cachesMatch c k = some r) :
    (strategyStaleWhileRevalidate c net k).result = Except.ok (some r) ∧
    (strategyStaleWhileRevalidate c net k).fetched = true ∧
    (∀ nr, net = Except.ok nr → nr.status = 200 →
      cacheMatch c.staticCache k = none →
      cachesMatch (strategyStaleWhileRevalidate c net k).cache k = some nr) := by
  refine ⟨?_, ?_, ?_⟩
  · simp [strategyStaleWhileRevalidate, h]
  · cases net with
    | ok nr => simp [strategyStaleWhileRevalidate, h]
    | error e => simp [strategyStaleWhileRevalidate, h]
  · intro nr hnet h200 hstatic
    subst hnet
    have hcache : (strategyStaleWhileRevalidate c (Except.ok nr) k).cache
        = { c with dynamicCache := cachePut c.dynamicCache k nr } := by
      simp [strategyStaleWhileRevalidate, h, h200]
    rw [hcache]
    simp [cachesMatch, Option.orElse, hstatic, cacheMatch_cachePut]

theorem C6_stale_while_revalidate_witness :
    (strategyStaleWhileRevalidate ⟨[], [("/page", ⟨200, "old"⟩)], [], []⟩
        (Except.ok ⟨200, "new"⟩) "/page").result = Except.ok (some ⟨200, "old"⟩) ∧
    cachesMatch (strategyStaleWhileRevalidate ⟨[], [("/page", ⟨200, "old"⟩)], [], []⟩
        (Except.ok ⟨200, "new"⟩) "/page").cache "/page" = some ⟨200, "new"⟩ :=
  ⟨(C6_stale_while_revalidate ⟨[], [("/page", ⟨200, "old"⟩)], [], []⟩ "/page"
      (Except.ok ⟨200, "new"⟩) ⟨200, "old"⟩ (by decide)).1,
   (C6_stale_while_revalidate ⟨[], [("/page", ⟨200, "old"⟩)], [], []⟩ "/page"
      (Except.ok ⟨200, "new"⟩) ⟨200, "old"⟩ (by decide)).2.2 ⟨200, "new"⟩ rfl rfl
      (by decide)⟩

/-- Claim C5 counterexample: with no cached entry and a failing network, the
claim requires the original network error to be surfaced to the caller, i.e.
a rejected result. The code catches the error and resolves with the value of
`caches.match`, which is undefined here: the caller gets a resolved
undefined, not the original error. -/
theorem C5_counterexample_error_not_surfaced :
    (strategyNetworkFirst emptyCaches (Except.error ()) "/api/items").result
      = Except.ok none ∧
    (strategyNetworkFirst emptyCaches (Except.error ()) "/api/items").result
      ≠ Except.error () := by
  decide

/-- Claim C5 amended: network first; a resolved response is returned and is
stored in the API namespace exactly when its status is 200; on network
failure the cached entry for the key is returned when one exists, and
otherwise the caller receives a resolved undefined value — the original
network error is never rethrown. -/
theorem C5_network_first_behavior (c : Caches) (k : String) (net : NetResult) :
    (strategyNetworkFirst c net k).fetched = true ∧
    (∀ nr, net = Except.ok nr →
      (strategyNetworkFirst c net k).result = Except.ok (some nr) ∧
      (strategyNetworkFirst c net k).cache =
        (if nr.status = 200 then { c with apiCache := cachePut c.apiCache k nr } else c)) ∧
    (net = Except.error () →
      (strategyNetworkFirst c net k).result = Except.ok (cachesMatch c k) ∧
      (strategyNetworkFirst c net k).cache = c) := by
  refine ⟨?_, ?_, ?_⟩
  · cases net with
    | ok nr =>
      by_cases h : nr.status = 200 <;> simp [strategyNetworkFirst, h]
    | error e => simp [strategyNetworkFirst]
  · intro nr hnet
    subst hnet
    by_cases h : nr.status = 200 <;> simp [strategyNetworkFirst, h]
  · intro hnet
    subst hnet
    simp [strategyNetworkFirst]

theorem C5_network_first_behavior_witness :
    (strategyNetworkFirst ⟨[], [], [], [("/api/items", ⟨200, "cached"⟩)]⟩
        (Except.error ()) "/api/items").result
      = Except.ok (some ⟨200, "cached"⟩) := by
  have h := (C5_network_first_behavior ⟨[], [], [], [("/api/items", ⟨200, "cached"⟩)]⟩
      "/api/items" (Except.error ())).2.2 rfl
  rw [h.1]
  decide

/-- Claim C8: a pending submission is deleted from the store exactly when its
own delivery attempt resolved with `response.ok`; on a failed or rejected
attempt it remains. -/
theorem C8_delete_iff_confirmed_success (store : List PendingUpload)
    (deliver : Nat → NetResult) (u : PendingUpload) (h : u ∈ store) :
    u ∈ (syncPhotos store deliver).1 ↔ deliverySucceeded (deliver u.id) = false := by
  simp [syncPhotos, List.mem_filter, h]

theorem C8_delete_iff_confirmed_success_witness :
    ((⟨1, 0⟩ : PendingUpload) ∈
        (syncPhotos [⟨1, 0⟩] (fun _ => Except.error ())).1
      ↔ deliverySucceeded (Except.error ()) = false) :=
  C8_delete_iff_confirmed_success [⟨1, 0⟩] (fun _ => Except.error ()) ⟨1, 0⟩ (by decide)

/-- The store used to exercise the sync handler: submission 1 enqueued before
submission 2, both with attempts 0. -/
def demoStore : List PendingUpload := [⟨1, 0⟩, ⟨2, 0⟩]

/-- Delivery oracle under which submission 1 fails (status 500) and
submission 2 succeeds. -/
def demoDeliver : Nat → NetResult :=
  fun n => if n = 1 then Except.ok ⟨500, "fail"⟩ else Except.ok ⟨200, "accepted"⟩

/-- Claim C3 counterexample: with submissions S1 then S2 and S1 failing, the
claim requires the drain to increment the attempts counter of S1 (to 1) and
stop, leaving S2 undelivered and still pending. The code attempts every
submission regardless: S2 is delivered and deleted, and S1 remains with its
attempts counter untouched at 0. -/
theorem C3_counterexample_no_stop_on_failure :
    (syncPhotos demoStore demoDeliver).1 = [⟨1, 0⟩] ∧
    (syncPhotos demoStore demoDeliver).2 = [1, 2] ∧
    (⟨2, 0⟩ : PendingUpload) ∉ (syncPhotos demoStore demoDeliver).1 ∧
    (⟨1, 1⟩ : PendingUpload) ∉ (syncPhotos demoStore demoDeliver).1 := by
  decide

/-- Claim C3 amended: draining initiates a delivery attempt for every pending
submission, in store order, independent of the outcomes of the other
attempts; a submission whose attempt failed stays in the store unchanged (no
attempts increment), a submission whose attempt succeeded is deleted, and a
failure does not stop later-enqueued submissions from being attempted and
delivered in the same drain. -/
theorem C3_drain_attempts_every_submission (store : List PendingUpload)
    (deliver : Nat → NetResult) :
    (syncPhotos store deliver).2 = store.map (fun u => u.id) ∧
    ∀ u, u ∈ store →
      (deliverySucceeded (deliver u.id) = false → u ∈ (syncPhotos store deliver).1) ∧
      (deliverySucceeded (deliver u.id) = true → u ∉ (syncPhotos store deliver).1) := by
  refine ⟨rfl, ?_⟩
  intro u hu
  constructor
  · intro hfail
    simp [syncPhotos, List.mem_filter, hu, hfail]
  · intro hok
    simp [syncPhotos, List.mem_filter, hok]

theorem C3_drain_attempts_every_submission_witness :
    (syncPhotos demoStore demoDeliver).2 = [1, 2] ∧
    (⟨2, 0⟩ : PendingUpload) ∉ (syncPhotos demoStore demoDeliver).1 :=
  ⟨(C3_drain_attempts_every_submission demoStore demoDeliver).1,
   ((C3_drain_attempts_every_submission demoStore demoDeliver).2 ⟨2, 0⟩
      (by decide)).2 (by decide)⟩

lemma handle401s_while_refreshing :
    ∀ (rs : List ApiRequest) (st : ApiState), st.isRefreshing = true →
      (∀ w ∈ rs, w.retry = false) →
      handle401s st rs =
        ({ st with refreshSubscribers := st.refreshSubscribers ++ rs },
         rs.map (fun _ => ErrOutcome.suspended)) := by
  intro rs
  induction rs with
  | nil =>
    intro st _ _
    simp [handle401s]
  | cons r rest ih =>
    intro st h hall
    have hr : r.retry = false := hall r (by simp)
    have hrest : ∀ w ∈ rest, w.retry = false := fun w hw => hall w (by simp [hw])
    have hstep : onError st r (some 401) =
        ({ st with refreshSubscribers := st.refreshSubscribers ++ [r] },
         ErrOutcome.suspended) := by
      simp [onError, hr, h]
    have hih := ih { st with refreshSubscribers := st.refreshSubscribers ++ [r] }
      (by simpa using h) hrest
    simp [handle401s, hstep, hih]

/-- Claim C1: from an idle state with a refresh token present, a burst of 401
responses on unmarked requests issues exactly one refresh call — the first
request starts the refresh, every later request registers as a subscriber and
suspends — and on refresh resolution every subscriber is resumed with the
same new access token, which the initiating request also retries with. -/
theorem C1_single_flight_refresh (st : ApiState) (r : ApiRequest)
    (rs : List ApiRequest) (access refresh tok : String)
    (hIdle : st.isRefreshing = false)
    (hSubs : st.refreshSubscribers = [])
    (hTok : st.storage.refreshToken = some tok)
    (hr : r.retry = false)
    (hall : ∀ w ∈ rs, w.retry = false) :
    (handle401s st (r :: rs)).1.refreshCalls = st.refreshCalls + 1 ∧
    (handle401s st (r :: rs)).2 =
      ErrOutcome.startedRefresh { r with retry := true } ::
        rs.map (fun _ => ErrOutcome.suspended) ∧
    (handle401s st (r :: rs)).1.refreshSubscribers = rs ∧
    (resolveRefreshSuccess (handle401s st (r :: rs)).1 { r with retry := true }
        access refresh).2.1 = rs.map (fun w => (w, access)) ∧
    (resolveRefreshSuccess (handle401s st (r :: rs)).1 { r with retry := true }
        access refresh).2.2 = ({ r with retry := true }, access) := by
  have hstep : onError st r (some 401) =
      ({ st with isRefreshing := true, refreshCalls := st.refreshCalls + 1 },
       ErrOutcome.startedRefresh { r with retry := true }) := by
    simp [onError, hr, hIdle, hTok]
  have hrest := handle401s_while_refreshing rs
    { st with isRefreshing := true, refreshCalls := st.refreshCalls + 1 } rfl hall
  have hmain : handle401s st (r :: rs) =
      ({ st with isRefreshing := true, refreshCalls := st.refreshCalls + 1,
                 refreshSubscribers := st.refreshSubscribers ++ rs },
       ErrOutcome.startedRefresh { r with retry := true } ::
         rs.map (fun _ => ErrOutcome.suspended)) := by
    simp [handle401s, hstep, hrest]
  rw [hmain]
  simp [resolveRefreshSuccess, hSubs]

/-- An idle pipeline state holding a valid token pair, used to instantiate
the authenticated-pipeline theorems. -/
def apiIdleState : ApiState :=
  ⟨false, [], ⟨some "a0", some "r0", some "u"⟩, 0⟩

theorem C1_single_flight_refresh_witness :
    (handle401s apiIdleState [⟨1, false⟩, ⟨2, false⟩, ⟨3, false⟩]).1.refreshCalls
      = apiIdleState.refreshCalls + 1 ∧
    (handle401s apiIdleState [⟨1, false⟩, ⟨2, false⟩, ⟨3, false⟩]).2 =
      ErrOutcome.startedRefresh ⟨1, true⟩ ::
        ([⟨2, false⟩, ⟨3, false⟩] : List ApiRequest).map (fun _ => ErrOutcome.suspended) ∧
    (handle401s apiIdleState [⟨1, false⟩, ⟨2, false⟩, ⟨3, false⟩]).1.refreshSubscribers
      = [⟨2, false⟩, ⟨3, false⟩] ∧
    (resolveRefreshSuccess (handle401s apiIdleState [⟨1, false⟩, ⟨2, false⟩, ⟨3, false⟩]).1
        ⟨1, true⟩ "a1" "r1").2.1
      = ([⟨2, false⟩, ⟨3, false⟩] : List ApiRequest).map (fun w => (w, "a1")) ∧
    (resolveRefreshSuccess (handle401s apiIdleState [⟨1, false⟩, ⟨2, false⟩, ⟨3, false⟩]).1
        ⟨1, true⟩ "a1" "r1").2.2 = (⟨1, true⟩, "a1") :=
  C1_single_flight_refresh apiIdleState ⟨1, false⟩ [⟨2, false⟩, ⟨3, false⟩]
    "a1" "r1" "r0" rfl rfl rfl rfl (by decide)

/-- A state in the middle of a refresh with one registered waiter, request 2. -/
def refreshingState : ApiState :=
  ⟨true, [⟨2, false⟩], ⟨some "a0", some "r0", some "u"⟩, 1⟩

/-- Claim C2: on refresh failure the persisted token data is indeed cleared,
but the registered waiter is not resumed: the subscriber list is overwritten
with [] without any callback being invoked (api.ts line 206), so the list of
resumed waiters is empty although a waiter was registered — its promise never
settles and its caller stays suspended forever, against the claim. -/
theorem C2_refresh_failure_drops_waiters :
    refreshingState.refreshSubscribers ≠ [] ∧
    (resolveRefreshFailure refreshingState).1.storage = ⟨none, none, none⟩ ∧
    (resolveRefreshFailure refreshingState).2.1 = [] := by
  decide

/-- Trace for claim C4: request 1 gets a 401 from idle and starts refresh 1. -/
def c4Step1 : ApiState × ErrOutcome :=
  onError apiIdleState ⟨1, false⟩ (some 401)

/-- Request 2 gets a 401 while refresh 1 is in flight and registers as a
waiter. -/
def c4Step2 : ApiState × ErrOutcome :=
  onError c4Step1.1 ⟨2, false⟩ (some 401)

/-- Refresh 1 succeeds with access token a1: request 2 is resumed and retried
with a1; its config was never marked `_retry`. -/
def c4Step3 : ApiState × List (ApiRequest × String) × (ApiRequest × String) :=
  resolveRefreshSuccess c4Step2.1 ⟨1, true⟩ "a1" "r1"

/-- The retried request 2 receives a second 401. -/
def c4Step4 : ApiState × ErrOutcome :=
  onError c4Step3.1 ⟨2, false⟩ (some 401)

/-- Claim C4 counterexample: request 2 went through a full refresh-and-retry
cycle (resumed from refresh 1 and retried with the new token), yet its next
401 is not a hard authentication failure: since waiters are never marked
`_retry`, it starts a second refresh, and so one request is retried via
refresh twice. -/
theorem C4_counterexample_waiter_retried_twice :
    c4Step3.2.1 = [(⟨2, false⟩, "a1")] ∧
    c4Step4.2 = ErrOutcome.startedRefresh ⟨2, true⟩ ∧
    c4Step4.1.refreshCalls = 2 := by
  decide

/-- Claim C4 amended: a 401 on a request marked `_retry` is a hard failure —
the standardized 401 error is thrown, the pipeline state is untouched, and in
particular no second refresh starts and no waiter is registered. Only
refresh-initiating requests get marked, so only they are limited to one
refresh-and-retry cycle; waiter requests are resumed unmarked. -/
theorem C4_retry_guard (st : ApiState) (r : ApiRequest) (h : r.retry = true) :
    onError st r (some 401) = (st, ErrOutcome.apiError 401) := by
  simp [onError, h]

theorem C4_retry_guard_witness :
    onError apiIdleState ⟨9, true⟩ (some 401) = (apiIdleState, ErrOutcome.apiError 401) :=
  C4_retry_guard apiIdleState ⟨9, true⟩ rfl

/-- Claim C10: a 401 arriving when no refresh is in flight and no refresh
token is stored clears all three persisted slots, empties the subscriber
list, fails the request with the authentication-required error, and issues no
refresh call (the refresh counter is unchanged). -/
theorem C10_missing_refresh_token (st : ApiState) (r : ApiRequest)
    (hIdle : st.isRefreshing = false) (hr : r.retry = false)
    (hTok : st.storage.refreshToken = none) :
    onError st r (some 401) =
      ({ st with isRefreshing := false, refreshSubscribers := [],
                 storage := ⟨none, none, none⟩ },
       ErrOutcome.authRequired) ∧
    (onError st r (some 401)).1.refreshCalls = st.refreshCalls := by
  have h : onError st r (some 401) =
      ({ st with isRefreshing := false, refreshSubscribers := [],
                 storage := ⟨none, none, none⟩ },
       ErrOutcome.authRequired) := by
    simp [onError, hr, hIdle, hTok, clearAuthData]
  exact ⟨h, by rw [h]⟩

theorem C10_missing_refresh_token_witness :
    onError ⟨false, [], ⟨some "a0", none, some "u"⟩, 0⟩ ⟨1, false⟩ (some 401) =
      (⟨false, [], ⟨none, none, none⟩, 0⟩, ErrOutcome.authRequired) :=
  (C10_missing_refresh_token ⟨false, [], ⟨some "a0", none, some "u"⟩, 0⟩
    ⟨1, false⟩ rfl rfl rfl).1
